import Mathlib

/-!
Verification of the gando response-normalization layer
(`src/gando/architectures/apis/__base.py`, class `BaseAPI`).

The Python class is embedded shallowly: the per-request mutable state of a
`BaseAPI` instance becomes the structure `GState`, Python values that flow
through the data/message machinery become the inductive `PyVal`
(mutually with `PyList` and `PyDict` for the nested containers), and each
method that a claim touches becomes a Lean function threading `GState`
explicitly.  Python truthiness, `dict.get` defaults, attribute-access
failure and `contextlib.suppress` are modelled explicitly where the code
relies on them.
-/

namespace Gando

/-- Kind tag for Python string values.  The gando string-message wrapper
classes (`InfoStringMessage`, `ErrorStringMessage` / DRF `ErrorDetail`,
`WarningStringMessage`, `LogStringMessage`, `ExceptionStringMessage`) are
`str` subclasses carrying a `code`; a plain `str` is `plain`.  `error`
covers both `ErrorStringMessage` and `ErrorDetail` since
`_BaseAPI__set_dynamic_message` treats them identically. -/
inductive StrKind where
  | plain | info | error | warning | log | exception
deriving DecidableEq, Repr

mutual

/-- A Python value as seen by the BaseAPI machinery: `None`, ints, strings
(`vstr kind code s`: a possibly-wrapped string with its wrapper kind and
`code` attribute; plain strings use kind `plain` with an irrelevant code),
lists, dicts, and generic attribute-bearing objects (`vobj`). -/
inductive PyVal where
  | pynone : PyVal
  | vint (n : Int) : PyVal
  | vstr (kind : StrKind) (code : String) (s : String) : PyVal
  | vlist (xs : PyList) : PyVal
  | vdict (xs : PyDict) : PyVal
  | vobj (attrs : PyDict) : PyVal
deriving DecidableEq, Repr

/-- A Python list of `PyVal`s. -/
inductive PyList where
  | nil : PyList
  | cons (x : PyVal) (xs : PyList) : PyList
deriving DecidableEq, Repr

/-- A Python dict with string keys (also used as the attribute map of a
generic object).  Keys are unique in any value built by the modelled code. -/
inductive PyDict where
  | nil : PyDict
  | cons (k : String) (v : PyVal) (xs : PyDict) : PyDict
deriving DecidableEq, Repr

end

/-- First binding of a key in a dict, `none` when absent. -/
def PyDict.lookup (k : String) : PyDict → Option PyVal
  | .nil => none
  | .cons k2 v xs => if k2 = k then some v else lookup k xs

/-- The keys of a dict, in order. -/
def PyDict.keys : PyDict → List String
  | .nil => []
  | .cons k _ xs => k :: keys xs

/-- Emptiness of a modelled Python list. -/
def PyList.isEmpty : PyList → Bool
  | .nil => true
  | .cons _ _ => false

/-- Emptiness of a modelled Python dict. -/
def PyDict.isEmpty : PyDict → Bool
  | .nil => true
  | .cons _ _ _ => false

/-- Python truthiness (`bool(x)`) for the modelled values: `None`, `0`,
empty strings and empty containers are falsy; a generic object is truthy. -/
def pyTruthy : PyVal → Bool
  | .pynone => false
  | .vint n => n ≠ 0
  | .vstr _ _ s => s ≠ ""
  | .vlist xs => ¬ xs.isEmpty
  | .vdict xs => ¬ xs.isEmpty
  | .vobj _ => true

/-- Python `==` between a modelled value and a string literal: any `str`
(plain or wrapper subclass) compares by content, anything else is unequal. -/
def pyEqStr (v : PyVal) (t : String) : Bool :=
  match v with
  | .vstr _ _ s => s = t
  | _ => false

/-- The recorded exception object (`self.exc`) as far as
`_BaseAPI__default_messenger_message_adder` probes it: `detail` is the value
of `exc.detail` when that attribute access succeeds (`none` = it raises),
`getCodes` likewise for `exc.get_codes()`. -/
structure ExcObj where
  detail : Option PyVal
  getCodes : Option PyVal
deriving DecidableEq, Repr

/-- The per-request mutable state of a `BaseAPI` instance (`__init__`):
the messenger list, the raw data slot, the five message accumulators
(each Python entry `{key: value}` modelled as the pair `(key, value)`),
the status code (`None` until set), the exception flag, and `self.exc`. -/
structure GState where
  messenger : List PyDict := []
  data : PyVal := .pynone
  logsMessage : List (String × PyVal) := []
  infosMessage : List (String × PyVal) := []
  warningsMessage : List (String × PyVal) := []
  errorsMessage : List (String × PyVal) := []
  exceptionsMessage : List (String × PyVal) := []
  statusCode : Option Int := none
  exceptionStatus : Bool := false
  exc : Option ExcObj := none
deriving DecidableEq, Repr

/-- A fresh instance state, as built by `BaseAPI.__init__`. -/
def initState : GState := {}

/-- `set_log_message`: append `{key: value}` to the log accumulator. -/
def set_log_message (key : String) (value : PyVal) (s : GState) : GState :=
  { s with logsMessage := s.logsMessage ++ [(key, value)] }

/-- `set_info_message`: append `{key: value}` to the info accumulator. -/
def set_info_message (key : String) (value : PyVal) (s : GState) : GState :=
  { s with infosMessage := s.infosMessage ++ [(key, value)] }

/-- `set_warning_message`: append `{key: value}` to the warning accumulator. -/
def set_warning_message (key : String) (value : PyVal) (s : GState) : GState :=
  { s with warningsMessage := s.warningsMessage ++ [(key, value)] }

/-- `set_error_message`: append `{key: value}` to the error accumulator. -/
def set_error_message (key : String) (value : PyVal) (s : GState) : GState :=
  { s with errorsMessage := s.errorsMessage ++ [(key, value)] }

/-- `set_exception_message`: append `{key: value}` to the exception
accumulator. -/
def set_exception_message (key : String) (value : PyVal) (s : GState) : GState :=
  { s with exceptionsMessage := s.exceptionsMessage ++ [(key, value)] }

/-- `set_status_code`: unconditional assignment of `self.__status_code`. -/
def set_status_code (value : Int) (s : GState) : GState :=
  { s with statusCode := some value }

/-- The value `self.__status_code or 200`: `None` and the falsy `0` both
give 200, any other stored value is returned as is. -/
def stored_status_code (s : GState) : Int :=
  match s.statusCode with
  | none => 200
  | some v => if v = 0 then 200 else v

/-- `get_status_code(value)`: when `value` is truthy, inside `[100,600)`
and not 200 it is stored first; the result is `self.__status_code or 200`.
Returns the result together with the updated state. -/
def get_status_code (value : Option Int) (s : GState) : Int × GState :=
  let s2 :=
    match value with
    | some v => if v ≠ 0 ∧ 100 ≤ v ∧ v < 600 ∧ v ≠ 200 then set_status_code v s else s
    | none => s
  (stored_status_code s2, s2)

/-- `_BaseAPI__fail_message_messenger`: does some messenger entry have
`msg.get('type','')` equal (Python `==`) to `'FAIL'` or `'ERROR'`? -/
def fail_message_messenger (s : GState) : Bool :=
  s.messenger.any fun m =>
    let t := (m.lookup "type").getD (.vstr .plain "" "")
    pyEqStr t "FAIL" || pyEqStr t "ERROR"

/-- `_BaseAPI__warning_message_messenger`: does some messenger entry have
type `'WARNING'`? -/
def warning_message_messenger (s : GState) : Bool :=
  s.messenger.any fun m =>
    pyEqStr ((m.lookup "type").getD (.vstr .plain "" "")) "WARNING"

/-- `_BaseAPI__success`: true when the status code is in `[200,300)`, or
when the error and exception accumulators are empty, the exception flag is
off and no messenger entry has type FAIL or ERROR. -/
def success (s : GState) : Bool :=
  if 200 ≤ stored_status_code s ∧ stored_status_code s < 300 then true
  else if s.errorsMessage.length = 0 ∧ s.exceptionsMessage.length = 0 ∧
      s.exceptionStatus = false ∧ fail_message_messenger s = false then true
  else false

/-- `_BaseAPI__has_warning`: warnings accumulator nonempty and some
messenger entry of type WARNING. -/
def has_warning (s : GState) : Bool :=
  s.warningsMessage.length ≠ 0 && warning_message_messenger s

/-- The success formula exactly as the specification states it (claim C1):
status in `[200,300)`, or else empty error and exception message lists and
no FAIL/ERROR messenger entry — with no mention of the exception flag. -/
def success_spec_formula (s : GState) : Bool :=
  (decide (200 ≤ stored_status_code s) && decide (stored_status_code s < 300)) ||
    (s.errorsMessage.isEmpty && s.exceptionsMessage.isEmpty && !fail_message_messenger s)

/-- A reachable finalization state: status 400, every accumulator empty,
but the exception flag set (as `finalize_response` does when the handled
response carries `exception=True`). -/
def stateC1 : GState := { initState with statusCode := some 400, exceptionStatus := true }

/-- Python attribute access `getattr(x, a)` as the parsers use it:
succeeds only on a generic object carrying the attribute; on `None`,
numbers, containers (and on the string inputs, which the parsers consume
before any attribute probe) it raises, modelled as `Except.error`. -/
def pyGetAttr (x : PyVal) (a : String) : Except Unit PyVal :=
  match x with
  | .vobj attrs =>
      match attrs.lookup a with
      | some v => .ok v
      | none => .error ()
  | _ => .error ()

/-- The method call `x.get(k)`: on a dict it succeeds, returning the bound
value or `None` when the key is absent; on any other modelled value there
is no `get` method and the call raises. -/
def pyGet (x : PyVal) (k : String) : Except Unit PyVal :=
  match x with
  | .vdict xs => .ok ((xs.lookup k).getD .pynone)
  | _ => .error ()

/-- Python indexing `x[0]`: the head of a nonempty list, the first
character of a nonempty string (as a plain string), otherwise an error. -/
def pyIndex0 (x : PyVal) : Except Unit PyVal :=
  match x with
  | .vlist (.cons v _) => .ok v
  | .vstr _ _ s => if s = "" then .error () else .ok (.vstr .plain "" (s.take 1))
  | _ => .error ()

/-- The cascade of `with contextlib.suppress(Exception): return step`
blocks: the first step that does not raise yields the result; when all
raise, the final literal `default` is returned. -/
def firstOk (steps : List (Except Unit PyVal)) (default : PyVal) : PyVal :=
  match steps with
  | [] => default
  | .ok v :: _ => v
  | .error _ :: rest => firstOk rest default

/-- The placeholder returned by message extraction when every fallback
step raises. -/
def unknownProblemMessage : PyVal :=
  .vstr .plain "" "Unknown problem. Please report to support."

/-- `_BaseAPI__messenger_message_parser`: a `str` (plain or wrapper) is
returned as is; otherwise the suppressed-exception cascade tries
`.detail`, `.details[0]`, `.details`, `.messages[0]`, `.messages`,
`.message`, then `.get('detail')`, `.get('details')[0]`, `.get('details')`,
`.get('messages')[0]`, `.get('messages')`, `.get('message')`, and finally
the fixed placeholder. -/
def messenger_message_parse (x : PyVal) : PyVal :=
  match x with
  | .vstr .. => x
  | _ =>
      firstOk
        [pyGetAttr x "detail",
         pyGetAttr x "details" >>= pyIndex0,
         pyGetAttr x "details",
         pyGetAttr x "messages" >>= pyIndex0,
         pyGetAttr x "messages",
         pyGetAttr x "message",
         pyGet x "detail",
         pyGet x "details" >>= pyIndex0,
         pyGet x "details",
         pyGet x "messages" >>= pyIndex0,
         pyGet x "messages",
         pyGet x "message"]
        unknownProblemMessage

/-- `_BaseAPI__messenger_code_parser`: ints and strings are returned as
is; otherwise `.code`, then `.get('code')`, then the literal `'-1'`. -/
def messenger_code_parse (x : PyVal) : PyVal :=
  match x with
  | .vint _ => x
  | .vstr .. => x
  | _ => firstOk [pyGetAttr x "code", pyGet x "code"] (.vstr .plain "" "-1")

/-- The messenger entry dict built by `_BaseAPI__add_to_messenger`:
`{'type': type_, 'code': parsed code, 'message': parsed message}`. -/
def mkMessengerEntry (message code : PyVal) (type0 : String) : PyDict :=
  .cons "type" (.vstr .plain "" type0)
    (.cons "code" (messenger_code_parse code)
      (.cons "message" (messenger_message_parse message) .nil))

/-- `_BaseAPI__add_to_messenger`: append the parsed entry to the
messenger list. -/
def add_to_messenger (message code : PyVal) (type0 : String) (s : GState) : GState :=
  { s with messenger := s.messenger ++ [mkMessengerEntry message code type0] }

/-- `add_fail_message_to_messenger`. -/
def add_fail_message_to_messenger (message code : PyVal) (s : GState) : GState :=
  add_to_messenger message code "FAIL" s

/-- `add_error_message_to_messenger`. -/
def add_error_message_to_messenger (message code : PyVal) (s : GState) : GState :=
  add_to_messenger message code "ERROR" s

/-- `add_warning_message_to_messenger`. -/
def add_warning_message_to_messenger (message code : PyVal) (s : GState) : GState :=
  add_to_messenger message code "WARNING" s

/-- `add_success_message_to_messenger`. -/
def add_success_message_to_messenger (message code : PyVal) (s : GState) : GState :=
  add_to_messenger message code "SUCCESS" s

mutual

/-- `_response_validator`: an empty list maps to `[]`, a nonempty list is
walked elementwise, an empty dict maps to `None`, a nonempty dict is
walked valuewise, anything else is returned unchanged. -/
def response_validator : PyVal → PyVal
  | .vlist .nil => .vlist .nil
  | .vlist xs => .vlist (response_validator_list xs)
  | .vdict .nil => .pynone
  | .vdict xs => .vdict (response_validator_dict xs)
  | d => d

/-- Elementwise walk of `_response_validator` over a list. -/
def response_validator_list : PyList → PyList
  | .nil => .nil
  | .cons x xs => .cons (response_validator x) (response_validator_list xs)

/-- Valuewise walk of `_response_validator` over a dict. -/
def response_validator_dict : PyDict → PyDict
  | .nil => .nil
  | .cons k v xs => .cons k (response_validator v) (response_validator_dict xs)

end

/-- `_BaseAPI__set_dynamic_message` on a string value of kind `k` with
code `c`: a wrapper string is routed to its accumulator (the stored value
is the string object itself) and replaced by `None`; a plain string (and
therefore any string reaching the v1/v2 `validate_data` string branch) is
returned unchanged. -/
def set_dynamic_message (k : StrKind) (c s0 : String) (st : GState) : GState × PyVal :=
  match k with
  | .info => (set_info_message c (.vstr .info c s0) st, .pynone)
  | .error => (set_error_message c (.vstr .error c s0) st, .pynone)
  | .warning => (set_warning_message c (.vstr .warning c s0) st, .pynone)
  | .log => (set_log_message c (.vstr .log c s0) st, .pynone)
  | .exception => (set_exception_message c (.vstr .exception c s0) st, .pynone)
  | .plain => (st, .vstr .plain c s0)

mutual

/-- `_BaseAPI__set_messages_from_data`: strings go through
`set_dynamic_message`; lists are rebuilt from the recursive results;
dicts recurse on each value for the side effects but write the ORIGINAL
value back (`tmp[k] = v` in the source, the recursive `rslt` being
discarded); anything else is returned unchanged. -/
def set_messages_from_data (st : GState) : PyVal → GState × PyVal
  | .vstr k c s0 => set_dynamic_message k c s0 st
  | .vlist xs =>
      let r := set_messages_from_data_list st xs
      (r.1, .vlist r.2)
  | .vdict xs =>
      let r := set_messages_from_data_dict st xs
      (r.1, .vdict r.2)
  | d => (st, d)

/-- List walk of `_BaseAPI__set_messages_from_data`: each element is
replaced by its recursive result. -/
def set_messages_from_data_list (st : GState) : PyList → GState × PyList
  | .nil => (st, .nil)
  | .cons x xs =>
      let r1 := set_messages_from_data st x
      let r2 := set_messages_from_data_list r1.1 xs
      (r2.1, .cons r1.2 r2.2)

/-- Dict walk of `_BaseAPI__set_messages_from_data`: the recursion runs on
each value (accumulating its side effects) but the original value is kept
in the output. -/
def set_messages_from_data_dict (st : GState) : PyDict → GState × PyDict
  | .nil => (st, .nil)
  | .cons k v xs =>
      let r1 := set_messages_from_data st v
      let r2 := set_messages_from_data_dict r1.1 xs
      (r2.1, .cons k v r2.2)

end

/-- Python `round` applied to a number whose exact value is the rational
`q`: round half to even.  The source applies `round` to a float, and a
float's value is an exact (dyadic) rational, so this models `round(cps)`
once `cps` itself is modelled as the float value the division produced. -/
def pyRound (q : ℚ) : ℤ :=
  if q - (⌊q⌋ : ℚ) < 1 / 2 then ⌊q⌋
  else if 1 / 2 < q - (⌊q⌋ : ℚ) then ⌊q⌋ + 1
  else if ⌊q⌋ % 2 = 0 then ⌊q⌋ else ⌊q⌋ + 1

/-- IEEE-754 binary64 rounding of a positive rational in the normal range:
the nearest multiple of `ulp = 2^(⌊log2 q⌋ - 52)`, ties to the even
multiple.  `count / page_size` on two Python ints produces exactly this
correctly-rounded double (for quotients in the normal range `[2^-1022,
2^1024)`; subnormal and overflowing quotients, which need page sizes or
counts beyond `2^1022`, are outside this model and excluded by the
theorems' bounds). -/
def floatRound (q : ℚ) : ℚ :=
  ((pyRound (q * (2 : ℚ) ^ ((52 : Int) - Int.log 2 q)) : Int) : ℚ) *
    (2 : ℚ) ^ (Int.log 2 q - (52 : Int))

/-- `first_page = int(bool(count))` of `_BaseAPI__get_pagination_url`. -/
def first_page (count : Int) : Int :=
  if count = 0 then 0 else 1

/-- The local `last_page` of `_BaseAPI__get_pagination_url`:
`cps = count / page_size` — the float division, modelled as the
correctly-rounded double value `floatRound` of the exact quotient —
`rcps = round(cps)`, and `last_page = cps if rcps == cps else rcps + 1`
(`int == float` and `round(float)` are exact on the float's value). -/
def last_page_q (page_size count : Int) : ℚ :=
  if ((pyRound (floatRound ((count : ℚ) / (page_size : ℚ))) : Int) : ℚ) =
      floatRound ((count : ℚ) / (page_size : ℚ)) then
    floatRound ((count : ℚ) / (page_size : ℚ))
  else ((pyRound (floatRound ((count : ℚ) / (page_size : ℚ))) : Int) : ℚ) + 1

/-- `next_page_number = None if page_number >= last_page else page_number + 1`. -/
def next_page_number (page_size page_number count : Int) : Option Int :=
  if (page_number : ℚ) ≥ last_page_q page_size count then none else some (page_number + 1)

/-- `previous_page_number = None if page_number <= first_page and first_page
else page_number - 1` (the `and` returns the falsy `first_page = 0` itself,
so the `None` arm needs `first_page` nonzero). -/
def previous_page_number (page_number count : Int) : Option Int :=
  if page_number ≤ first_page count ∧ first_page count ≠ 0 then none
  else some (page_number - 1)

/-- Rendering `f'{path}?page={n}' if n else None`: a present, nonzero page
number renders as a URL, `None` and the falsy 0 render as `None`. -/
def render_page (path : String) (n : Option Int) : Option String :=
  match n with
  | some m => if m ≠ 0 then some (path ++ "?page=" ++ toString m) else none
  | none => none

/-- `_BaseAPI__get_pagination_url`: the `(next, previous)` URL pair.
`path` stands for `self.get_request_path`. -/
def get_pagination_url (path : String) (page_size page_number count : Int) :
    Option String × Option String :=
  (render_page path (next_page_number page_size page_number count),
    render_page path (previous_page_number page_number count))

/-- Closed form of the code's `last_page` for a positive `page_size`,
with `q = count / page_size` and `r = count % page_size`: exact division
gives `q`; a fractional part below one half (or equal to one half with
`q` even) gives `q + 1`; a fractional part above one half (or equal to
one half with `q` odd) gives `q + 2`. -/
def last_page_closed (page_size count : Int) : Int :=
  if count % page_size = 0 then count / page_size
  else if 2 * (count % page_size) < page_size then count / page_size + 1
  else if 2 * (count % page_size) = page_size ∧ (count / page_size) % 2 = 0 then
    count / page_size + 1
  else count / page_size + 2

/-- Pagination URLs exactly as claim C4 states them: `last_page` is
`ceil(count/page_size)`, `next` is `page_number + 1` unless at or after
the last page, `previous` is `page_number - 1` unless at or before the
first page. -/
def claimed_pagination (path : String) (page_size page_number count : Int) :
    Option String × Option String :=
  let last : Int := ⌈(count : ℚ) / (page_size : ℚ)⌉
  ((if last ≤ page_number then none
    else some (path ++ "?page=" ++ toString (page_number + 1))),
    (if page_number ≤ 1 then none
      else some (path ++ "?page=" ++ toString (page_number - 1))))

/-- Python `len` of a modelled list. -/
def PyList.length : PyList → Int
  | .nil => 0
  | .cons _ xs => 1 + length xs

/-- Python `a or b` where `a` is an optional probe result (`none` models a
probe that yielded Python `None`): the probe value when truthy, else `b`. -/
def py_or (v : Option PyVal) (d : PyVal) : PyVal :=
  match v with
  | some x => if pyTruthy x then x else d
  | none => d

/-- A canned default message class of `gando.utils.messages`: a `type`
(`FAIL` or `SUCCESS`), a `code` and a `message`. -/
structure DefaultAPIMessage where
  type0 : String
  code : String
  message : String
deriving DecidableEq, Repr

/-- Modelled from the spec: the ten canned default message classes are
imported from `gando.utils.messages`, which is not among the provided
sources.  The spec fixes only that each status band has fixed canned
text; the `type` follows each class name (`...FailMessage` / `...
SuccessMessage`), while codes and texts are per-band placeholder values. -/
def DefaultResponse100FailMessage : DefaultAPIMessage :=
  ⟨"FAIL", "default_100", "default message 100"⟩

/-- Modelled from the spec: canned 200 message, see
`DefaultResponse100FailMessage`. -/
def DefaultResponse200SuccessMessage : DefaultAPIMessage :=
  ⟨"SUCCESS", "default_200", "default message 200"⟩

/-- Modelled from the spec: canned 201 message, see
`DefaultResponse100FailMessage`. -/
def DefaultResponse201SuccessMessage : DefaultAPIMessage :=
  ⟨"SUCCESS", "default_201", "default message 201"⟩

/-- Modelled from the spec: canned 300 message, see
`DefaultResponse100FailMessage`. -/
def DefaultResponse300FailMessage : DefaultAPIMessage :=
  ⟨"FAIL", "default_300", "default message 300"⟩

/-- Modelled from the spec: canned 400 message, see
`DefaultResponse100FailMessage`. -/
def DefaultResponse400FailMessage : DefaultAPIMessage :=
  ⟨"FAIL", "default_400", "default message 400"⟩

/-- Modelled from the spec: canned 401 message, see
`DefaultResponse100FailMessage`. -/
def DefaultResponse401FailMessage : DefaultAPIMessage :=
  ⟨"FAIL", "default_401", "default message 401"⟩

/-- Modelled from the spec: canned 403 message, see
`DefaultResponse100FailMessage`. -/
def DefaultResponse403FailMessage : DefaultAPIMessage :=
  ⟨"FAIL", "default_403", "default message 403"⟩

/-- Modelled from the spec: canned 404 message, see
`DefaultResponse100FailMessage`. -/
def DefaultResponse404FailMessage : DefaultAPIMessage :=
  ⟨"FAIL", "default_404", "default message 404"⟩

/-- Modelled from the spec: canned 421 message, see
`DefaultResponse100FailMessage`. -/
def DefaultResponse421FailMessage : DefaultAPIMessage :=
  ⟨"FAIL", "default_421", "default message 421"⟩

/-- Modelled from the spec: canned 500 message, see
`DefaultResponse100FailMessage`. -/
def DefaultResponse500FailMessage : DefaultAPIMessage :=
  ⟨"FAIL", "default_500", "default message 500"⟩

/-- `_BaseAPI__default_message`: the human-readable default text chosen
purely from the status code (texts as in the source). -/
def default_message (s : GState) : String :=
  if 100 ≤ stored_status_code s ∧ stored_status_code s < 200 then "please wait..."
  else if 200 ≤ stored_status_code s ∧ stored_status_code s < 300 then
    if stored_status_code s = 201 then "The desired object was created correctly."
    else "Your request has been successfully registered."
  else if 300 ≤ stored_status_code s ∧ stored_status_code s < 400 then
    "The requirements for your request are not available."
  else if 400 ≤ stored_status_code s ∧ stored_status_code s < 500 then
    if stored_status_code s = 400 then "Bad Request..."
    else if stored_status_code s = 401 then "Your authentication information is not available."
    else if stored_status_code s = 403 then "You do not have access to this section."
    else if stored_status_code s = 404 then "There is no information about your request."
    else if stored_status_code s = 421 then
      "An unexpected error has occurred based on your request type.\nPlease do not repeat this request without changing your request.\nBe sure to read the documents on how to use this service correctly.\nIn any case, discuss the issue with software support.\n"
    else "There was an error in how to send the request."
  else if 500 ≤ stored_status_code s then "The server is unable to respond to your request."
  else "Undefined."

/-- `_BaseAPI__default_messenger_message_adder`: probe `self.exc` for
`detail` / `get_codes()` (each probe swallowing its own failure), then
append one canned messenger entry selected by the status-code band —
`message or Default.message` / `code or Default.code` preferring the
probed values when truthy.  Status codes below 100 fall into the final
`else: pass` and append nothing. -/
def default_messenger_message_adder (s : GState) : GState :=
  let message := s.exc.bind (·.detail)
  let code := s.exc.bind (·.getCodes)
  if 100 ≤ stored_status_code s ∧ stored_status_code s < 200 then
    add_to_messenger (py_or message (.vstr .plain "" DefaultResponse100FailMessage.message))
      (py_or code (.vstr .plain "" DefaultResponse100FailMessage.code))
      DefaultResponse100FailMessage.type0 s
  else if 200 ≤ stored_status_code s ∧ stored_status_code s < 300 then
    if stored_status_code s = 201 then
      add_to_messenger (py_or message (.vstr .plain "" DefaultResponse201SuccessMessage.message))
        (py_or code (.vstr .plain "" DefaultResponse201SuccessMessage.code))
        DefaultResponse201SuccessMessage.type0 s
    else
      add_to_messenger (py_or message (.vstr .plain "" DefaultResponse200SuccessMessage.message))
        (py_or code (.vstr .plain "" DefaultResponse200SuccessMessage.code))
        DefaultResponse200SuccessMessage.type0 s
  else if 300 ≤ stored_status_code s ∧ stored_status_code s < 400 then
    add_to_messenger (py_or message (.vstr .plain "" DefaultResponse300FailMessage.message))
      (py_or code (.vstr .plain "" DefaultResponse300FailMessage.code))
      DefaultResponse300FailMessage.type0 s
  else if 400 ≤ stored_status_code s ∧ stored_status_code s < 500 then
    if stored_status_code s = 400 then
      add_to_messenger (py_or message (.vstr .plain "" DefaultResponse400FailMessage.message))
        (py_or code (.vstr .plain "" DefaultResponse400FailMessage.code))
        DefaultResponse400FailMessage.type0 s
    else if stored_status_code s = 401 then
      add_to_messenger (py_or message (.vstr .plain "" DefaultResponse401FailMessage.message))
        (py_or code (.vstr .plain "" DefaultResponse401FailMessage.code))
        DefaultResponse401FailMessage.type0 s
    else if stored_status_code s = 403 then
      add_to_messenger (py_or message (.vstr .plain "" DefaultResponse403FailMessage.message))
        (py_or code (.vstr .plain "" DefaultResponse403FailMessage.code))
        DefaultResponse403FailMessage.type0 s
    else if stored_status_code s = 404 then
      add_to_messenger (py_or message (.vstr .plain "" DefaultResponse404FailMessage.message))
        (py_or code (.vstr .plain "" DefaultResponse404FailMessage.code))
        DefaultResponse404FailMessage.type0 s
    else if stored_status_code s = 421 then
      add_to_messenger (py_or message (.vstr .plain "" DefaultResponse421FailMessage.message))
        (py_or code (.vstr .plain "" DefaultResponse421FailMessage.code))
        DefaultResponse421FailMessage.type0 s
    else
      add_to_messenger (py_or message (.vstr .plain "" DefaultResponse400FailMessage.message))
        (py_or code (.vstr .plain "" DefaultResponse400FailMessage.code))
        DefaultResponse400FailMessage.type0 s
  else if 500 ≤ stored_status_code s then
    add_to_messenger (py_or message (.vstr .plain "" DefaultResponse500FailMessage.message))
      (py_or code (.vstr .plain "" DefaultResponse500FailMessage.code))
      DefaultResponse500FailMessage.type0 s
  else s

/-- The canned message class the status-code band table selects, `none`
for the sub-100 `else: pass` band that appends nothing. -/
def band_default (sc : Int) : Option DefaultAPIMessage :=
  if 100 ≤ sc ∧ sc < 200 then some DefaultResponse100FailMessage
  else if 200 ≤ sc ∧ sc < 300 then
    if sc = 201 then some DefaultResponse201SuccessMessage
    else some DefaultResponse200SuccessMessage
  else if 300 ≤ sc ∧ sc < 400 then some DefaultResponse300FailMessage
  else if 400 ≤ sc ∧ sc < 500 then
    if sc = 400 then some DefaultResponse400FailMessage
    else if sc = 401 then some DefaultResponse401FailMessage
    else if sc = 403 then some DefaultResponse403FailMessage
    else if sc = 404 then some DefaultResponse404FailMessage
    else if sc = 421 then some DefaultResponse421FailMessage
    else some DefaultResponse400FailMessage
  else if 500 ≤ sc then some DefaultResponse500FailMessage
  else none

/-- `_BaseAPI__set_default_message`: run the messenger adder, then record
the band text in the warning (1xx), info (2xx) or error (3xx/4xx/5xx and
out-of-range) accumulator. -/
def set_default_message (s : GState) : GState :=
  let s1 := default_messenger_message_adder s
  if 100 ≤ stored_status_code s1 ∧ stored_status_code s1 < 200 then
    set_warning_message "status_code_1xx" (.vstr .plain "" (default_message s1)) s1
  else if 200 ≤ stored_status_code s1 ∧ stored_status_code s1 < 300 then
    set_info_message "status_code_2xx" (.vstr .plain "" (default_message s1)) s1
  else if 300 ≤ stored_status_code s1 ∧ stored_status_code s1 < 400 then
    set_error_message "status_code_3xx" (.vstr .plain "" (default_message s1)) s1
  else if 400 ≤ stored_status_code s1 ∧ stored_status_code s1 < 500 then
    set_error_message "status_code_4xx" (.vstr .plain "" (default_message s1)) s1
  else if 500 ≤ stored_status_code s1 then
    set_error_message "status_code_5xx" (.vstr .plain "" (default_message s1)) s1
  else
    set_error_message "status_code_xxx" (.vstr .plain "" (default_message s1)) s1

/-- `validate_data` (schema v1): `None` data triggers the default-message
injection and yields `{'result': {}}`; a string runs through the dynamic
message hook and yields `{'result': {'string': data} if data else {}}`;
a list yields the paginated shape with key `results`; a dict is wrapped
as `{'result': data}`; anything else yields `{'result': {}}`. -/
def validate_data (s : GState) : GState × PyVal :=
  match s.data with
  | .pynone =>
      (set_default_message s, .vdict (.cons "result" (.vdict .nil) .nil))
  | .vstr k c str =>
      let r := set_dynamic_message k c str s
      (r.1, .vdict (.cons "result"
        (if pyTruthy r.2 then .vdict (.cons "string" r.2 .nil) else .vdict .nil) .nil))
  | .vlist xs =>
      (s, .vdict (.cons "count" (.vint xs.length)
        (.cons "next" .pynone
          (.cons "previous" .pynone
            (.cons "results" (.vlist xs) .nil)))))
  | .vdict xs => (s, .vdict (.cons "result" (.vdict xs) .nil))
  | _ => (s, .vdict (.cons "result" (.vdict .nil) .nil))

/-- Category of a raised exception as `handle_exception` classifies it by
`isinstance`: the three developer-facing and three end-user-facing domain
message exceptions, or anything else (`other`). -/
inductive ExcCat where
  | devError | devException | devWarning | endError | endFail | endWarning | other
deriving DecidableEq, Repr

/-- A raised exception as the handler probes it: its category, the
`status_code` / `code` / `message` attributes the domain classes carry,
the `args` tuple, and the optional `detail` / `get_codes()` probe results
recorded into `self.exc`. -/
structure RaisedExc where
  cat : ExcCat
  statusCode : Int
  code : String
  message : String
  args : PyVal
  detail : Option PyVal
  getCodes : Option PyVal
deriving DecidableEq, Repr

/-- An exception of the recognized domain set (any category but `other`). -/
def recognized (e : RaisedExc) : Bool :=
  e.cat ≠ ExcCat.other

/-- The generic `unexpectedError` error text of
`_handle_exception_gando_handling_true`. -/
def unexpectedErrorText : String :=
  "An unexpected error has occurred based on your request type.\nPlease do not repeat this request without changing your request.\nBe sure to read the documents on how to use this service correctly.\nIn any case, discuss the issue with software support.\n"

/-- `_handle_exception_gando_handling_true`: after the framework
`exception_handler` (a state no-op for every modelled, non-framework
exception, returning None so a blank response is substituted), record the
generic `unexpectedError` exception/error/warning messages, the optional
support-contact info message (`support` models
`SETTINGS.EXCEPTION_HANDLER.COMMUNICATION_WITH_SOFTWARE_SUPPORT`, skipped
when falsy), and force status 421. -/
def handle_exception_gando_handling_true (support : Option String) (e : RaisedExc)
    (s : GState) : GState :=
  let s1 := set_exception_message "unexpectedError" e.args s
  let s2 := set_error_message "unexpectedError" (.vstr .plain "" unexpectedErrorText) s1
  let s3 := set_warning_message "unexpectedError"
    (.vstr .plain "" "Please discuss this matter with software support.") s2
  let s4 :=
    match support with
    | some addr =>
        if addr ≠ "" then
          set_info_message "unexpectedError"
            (.vstr .plain ""
              ("Please share this problem with our technical experts at the Email address \x27"
                ++ addr ++ "\x27.")) s3
        else s3
    | none => s3
  set_status_code 421 s4

/-- `handle_exception`: record `self.exc`, dispatch on the recognized
domain categories — each setting the status code to the exception's own
and appending exactly one message to its accumulator — and then, with the
gando handling flag on, ALWAYS hand off to
`_handle_exception_gando_handling_true`; with the flag off the state is
left as dispatched (the source re-raises through
`raise_uncaught_exception` since `exception_handler` returns None).
Framework-native exceptions (DRF `APIException`, `Http404`,
`PermissionDenied`, the authentication pair with their 401→403 coercion)
are outside the modelled input space; for every modelled exception the
inner `exception_handler` leaves the state untouched. -/
def handle_exception (handling : Bool) (support : Option String) (e : RaisedExc)
    (s : GState) : GState :=
  let s0 := { s with exc := some ⟨e.detail, e.getCodes⟩ }
  let s1 :=
    match e.cat with
    | .devError =>
        set_error_message e.code (.vstr .plain "" e.message) (set_status_code e.statusCode s0)
    | .devException =>
        set_exception_message e.code (.vstr .plain "" e.message)
          (set_status_code e.statusCode s0)
    | .devWarning =>
        set_warning_message e.code (.vstr .plain "" e.message)
          (set_status_code e.statusCode s0)
    | .endError =>
        add_error_message_to_messenger (.vstr .plain "" e.message) (.vstr .plain "" e.code)
          (set_status_code e.statusCode s0)
    | .endFail =>
        add_fail_message_to_messenger (.vstr .plain "" e.message) (.vstr .plain "" e.code)
          (set_status_code e.statusCode s0)
    | .endWarning =>
        add_warning_message_to_messenger (.vstr .plain "" e.message) (.vstr .plain "" e.code)
          (set_status_code e.statusCode s0)
    | .other => s0
  if handling then handle_exception_gando_handling_true support e s1 else s1

end Gando

/-- Claim C1 (counterexample): the envelope `success` flag is NOT
equivalent to the formula of the claim — with status 400, empty message
lists, an empty messenger and the exception flag set, the code computes
`success = false` while the claimed formula yields true. -/
theorem C1_counterexample :
    ¬ (Gando.success Gando.stateC1 = true ↔ Gando.success_spec_formula Gando.stateC1 = true) := by
  decide

/-- Claim C1 (amended): for every state, `success` is true iff the status
code lies in `[200,300)`, or else the error-message list and the
exception-message list are empty, the exception flag is off, and no
messenger entry has type FAIL or ERROR. -/
theorem C1_success_formula :
    ∀ s : Gando.GState,
      Gando.success s = true ↔
        ((200 ≤ Gando.stored_status_code s ∧ Gando.stored_status_code s < 300) ∨
          (s.errorsMessage = [] ∧ s.exceptionsMessage = [] ∧
            s.exceptionStatus = false ∧ Gando.fail_message_messenger s = false)) := by
  intro s
  unfold Gando.success
  split
  · simp_all
  · split
    · simp_all [List.length_eq_zero]
    · simp_all [List.length_eq_zero]

/-- Claim C6 (counterexample): passing an empty dict as the message
argument produces a messenger entry whose `message` field is null — the
`.get('detail')` fallback step succeeds with `None` instead of raising,
so the placeholder is never reached. -/
theorem C6_counterexample :
    (Gando.add_fail_message_to_messenger (.vdict .nil) (.vstr .plain "" "c")
        Gando.initState).messenger =
      [.cons "type" (.vstr .plain "" "FAIL")
        (.cons "code" (.vstr .plain "" "c")
          (.cons "message" .pynone .nil))] := by
  decide

/-- Claim C6 (amended): every append stores a `message` field computed by
the total extraction function — strings are kept as given, and values
with neither attributes nor a `get` method (`None`, ints, lists) fall
through every step to the fixed placeholder — but the field can be null,
because a fallback step may succeed with `None` (a dict lacking the
`detail` key). -/
theorem C6_message_extraction_total :
    (∀ (m c : Gando.PyVal) (ty : String) (s : Gando.GState),
        (Gando.add_to_messenger m c ty s).messenger =
          s.messenger ++ [Gando.mkMessengerEntry m c ty]) ∧
      (∀ k c str, Gando.messenger_message_parse (.vstr k c str) = .vstr k c str) ∧
      Gando.messenger_message_parse .pynone = Gando.unknownProblemMessage ∧
      (∀ n : Int, Gando.messenger_message_parse (.vint n) = Gando.unknownProblemMessage) ∧
      (∀ xs : Gando.PyList,
        Gando.messenger_message_parse (.vlist xs) = Gando.unknownProblemMessage) ∧
      Gando.messenger_message_parse (.vdict .nil) = .pynone := by
  refine ⟨fun m c ty s => rfl, fun k c str => rfl, rfl, fun n => rfl, fun xs => rfl, rfl⟩

/-- Claim C7 (counterexample): the stored status code 0 is a non-200 value
set by an explicit call, yet a later no-argument `get_status_code` returns
200, not the stored value, because `self.__status_code or 200` treats the
falsy 0 as unset. -/
theorem C7_counterexample :
    (Gando.get_status_code none (Gando.set_status_code 0 Gando.initState)).1 ≠ 0 := by
  decide

/-- Claim C7 (amended): once the status code is set to a nonzero non-200
value, a later `get_status_code` call supplying no value, the default 200,
or any value outside `[100,600)` neither changes the stored code nor
returns anything but the stored value. -/
theorem C7_status_code_not_overwritten :
    ∀ (v : Int) (s : Gando.GState) (w : Option Int),
      v ≠ 200 → v ≠ 0 →
      (w = none ∨ w = some 200 ∨ ∀ u, w = some u → (u < 100 ∨ 600 ≤ u)) →
      (Gando.get_status_code w (Gando.set_status_code v s)).1 = v ∧
        (Gando.get_status_code w (Gando.set_status_code v s)).2.statusCode = some v := by
  intro v s w hv hv0 hw
  cases w with
  | none =>
      refine ⟨?_, ?_⟩ <;>
        simp [Gando.get_status_code, Gando.stored_status_code, Gando.set_status_code, hv0]
  | some u =>
      have hcond : ¬ (u ≠ 0 ∧ 100 ≤ u ∧ u < 600 ∧ u ≠ 200) := by
        rcases hw with h | h | h
        · exact absurd h (by simp)
        · rw [Option.some.injEq] at h
          subst h
          simp
        · rcases h u rfl with hu | hu <;> · rintro ⟨-, h100, h600, -⟩; omega
      refine ⟨?_, ?_⟩ <;>
        simp [Gando.get_status_code, Gando.stored_status_code, Gando.set_status_code,
          hcond, hv0]

/-- Claim C7 (witness): instantiating the amended theorem at stored value
404 and a later default-200 call. -/
theorem C7_witness :
    (Gando.get_status_code (some 200) (Gando.set_status_code 404 Gando.initState)).1 = 404 ∧
      (Gando.get_status_code (some 200)
          (Gando.set_status_code 404 Gando.initState)).2.statusCode = some 404 :=
  C7_status_code_not_overwritten 404 Gando.initState (some 200)
    (by decide) (by decide) (Or.inr (Or.inl rfl))

/-- Claim C8 (counterexample): a dict exposing none of the known keys does
not yield the fixed placeholder string — `.get('detail')` succeeds with
`None`, so extraction returns null instead. -/
theorem C8_counterexample :
    Gando.messenger_message_parse (.vdict .nil) ≠ Gando.unknownProblemMessage := by
  decide

/-- Claim C8 (amended): extraction tries `.detail`, `.details[0]`,
`.details`, `.messages[0]`, `.messages`, `.message`, then the dict-key
equivalents, first success winning; an object exposing only a `.message`
attribute yields that attribute; a non-dict object exposing none of the
known attributes yields the fixed placeholder; but a dict exposing none
of the known keys yields null (its `.get` succeeds with `None`), not the
placeholder. -/
theorem C8_fallback_chain :
    (∀ (attrs : Gando.PyDict) (v : Gando.PyVal),
        attrs.lookup "detail" = none → attrs.lookup "details" = none →
        attrs.lookup "messages" = none → attrs.lookup "message" = some v →
        Gando.messenger_message_parse (.vobj attrs) = v) ∧
      (∀ attrs : Gando.PyDict,
        attrs.lookup "detail" = none → attrs.lookup "details" = none →
        attrs.lookup "messages" = none → attrs.lookup "message" = none →
        Gando.messenger_message_parse (.vobj attrs) = Gando.unknownProblemMessage) ∧
      Gando.messenger_message_parse (.vdict .nil) = .pynone := by
  refine ⟨?_, ?_, rfl⟩
  · intro attrs v h1 h2 h3 h4
    simp [Gando.messenger_message_parse, Gando.pyGetAttr, Gando.pyGet,
      h1, h2, h3, h4, Gando.firstOk, Bind.bind, Except.bind]
  · intro attrs h1 h2 h3 h4
    simp [Gando.messenger_message_parse, Gando.pyGetAttr, Gando.pyGet,
      h1, h2, h3, h4, Gando.firstOk, Bind.bind, Except.bind]

/-- Claim C8 (witness): the amended theorem applied to the object
`{message: 'hi'}` and to the attribute-free object. -/
theorem C8_witness :
    Gando.messenger_message_parse
        (.vobj (.cons "message" (.vstr .plain "" "hi") .nil)) = .vstr .plain "" "hi" ∧
      Gando.messenger_message_parse (.vobj .nil) = Gando.unknownProblemMessage :=
  ⟨C8_fallback_chain.1 (.cons "message" (.vstr .plain "" "hi") .nil)
      (.vstr .plain "" "hi") (by decide) (by decide) (by decide) (by decide),
    C8_fallback_chain.2.1 .nil (by decide) (by decide) (by decide) (by decide)⟩

/-- Claim C10: every entry appended through the four public messenger
functions is a dict with exactly the keys `type`, `code`, `message`, in
that order, whose `type` is the corresponding literal. -/
theorem C10_messenger_entry_shape :
    ∀ (m c : Gando.PyVal) (s : Gando.GState),
      ((Gando.add_fail_message_to_messenger m c s).messenger =
          s.messenger ++ [Gando.mkMessengerEntry m c "FAIL"]) ∧
        ((Gando.add_error_message_to_messenger m c s).messenger =
          s.messenger ++ [Gando.mkMessengerEntry m c "ERROR"]) ∧
        ((Gando.add_warning_message_to_messenger m c s).messenger =
          s.messenger ++ [Gando.mkMessengerEntry m c "WARNING"]) ∧
        ((Gando.add_success_message_to_messenger m c s).messenger =
          s.messenger ++ [Gando.mkMessengerEntry m c "SUCCESS"]) ∧
        (∀ ty, (Gando.mkMessengerEntry m c ty).keys = ["type", "code", "message"]) ∧
        (∀ ty, (Gando.mkMessengerEntry m c ty).lookup "type" =
          some (.vstr .plain "" ty)) := by
  intro m c s
  exact ⟨rfl, rfl, rfl, rfl, fun ty => rfl, fun ty => rfl⟩

mutual

/-- Idempotence of the sanitizer on a single value. -/
theorem response_validator_idem :
    ∀ v : Gando.PyVal,
      Gando.response_validator (Gando.response_validator v) = Gando.response_validator v
  | .pynone => rfl
  | .vint _ => rfl
  | .vstr _ _ _ => rfl
  | .vobj _ => rfl
  | .vlist .nil => rfl
  | .vlist (.cons x xs) => by
      simp only [Gando.response_validator]
      cases h : Gando.response_validator_list (.cons x xs) with
      | nil => simp [Gando.response_validator_list] at h
      | cons y ys =>
          simp only [Gando.response_validator]
          rw [← h, response_validator_list_idem (.cons x xs)]
  | .vdict .nil => rfl
  | .vdict (.cons k v xs) => by
      simp only [Gando.response_validator]
      cases h : Gando.response_validator_dict (.cons k v xs) with
      | nil => simp [Gando.response_validator_dict] at h
      | cons k2 v2 ys =>
          simp only [Gando.response_validator]
          rw [← h, response_validator_dict_idem (.cons k v xs)]

/-- Idempotence of the sanitizer walk over list elements. -/
theorem response_validator_list_idem :
    ∀ xs : Gando.PyList,
      Gando.response_validator_list (Gando.response_validator_list xs) =
        Gando.response_validator_list xs
  | .nil => rfl
  | .cons x xs => by
      simp only [Gando.response_validator_list]
      rw [response_validator_idem x, response_validator_list_idem xs]

/-- Idempotence of the sanitizer walk over dict values. -/
theorem response_validator_dict_idem :
    ∀ xs : Gando.PyDict,
      Gando.response_validator_dict (Gando.response_validator_dict xs) =
        Gando.response_validator_dict xs
  | .nil => rfl
  | .cons k v xs => by
      simp only [Gando.response_validator_dict]
      rw [response_validator_idem v, response_validator_dict_idem xs]

end

/-- Claim C9: the recursive response sanitizer is idempotent — applying it
twice to any tree of plain lists and dicts yields the same result as
applying it once. -/
theorem C9_sanitizer_idempotent :
    ∀ v : Gando.PyVal,
      Gando.response_validator (Gando.response_validator v) = Gando.response_validator v :=
  response_validator_idem

/-- Claim C3 (code evaluated at the failing input): for the dict
`{'k': ErrorStringMessage('boom', code='c')}` the walker extracts the
message into the error accumulator but writes the ORIGINAL wrapper string
back into the dict instead of `None` (the source discards the recursive
result, `tmp[k] = v`); the same wrapper as a list element IS replaced by
`None`. -/
theorem C3_dict_value_not_replaced :
    Gando.set_messages_from_data Gando.initState
        (.vdict (.cons "k" (.vstr .error "c" "boom") .nil)) =
      ({ Gando.initState with errorsMessage := [("c", .vstr .error "c" "boom")] },
        .vdict (.cons "k" (.vstr .error "c" "boom") .nil)) ∧
      Gando.set_messages_from_data Gando.initState
          (.vlist (.cons (.vstr .error "c" "boom") .nil)) =
        ({ Gando.initState with errorsMessage := [("c", .vstr .error "c" "boom")] },
          .vlist (.cons .pynone .nil)) := by
  exact ⟨rfl, rfl⟩

/-- Python rounding of an integer plus a fractional part in `[0,1)`. -/
theorem pyRound_int_add_frac (q : Int) (x : ℚ) (hx0 : 0 ≤ x) (hx1 : x < 1) :
    Gando.pyRound ((q : ℚ) + x) =
      if x < 1 / 2 then q
      else if 1 / 2 < x then q + 1
      else if q % 2 = 0 then q else q + 1 := by
  have hf : ⌊(q : ℚ) + x⌋ = q := by
    rw [Int.floor_int_add, Int.floor_eq_zero_iff.mpr (Set.mem_Ico.mpr ⟨hx0, hx1⟩), add_zero]
  have hsub : (q : ℚ) + x - (⌊(q : ℚ) + x⌋ : ℚ) = x := by
    rw [hf]
    ring
  unfold Gando.pyRound
  rw [hsub, hf]

/-- `pyRound` of an integer value. -/
theorem pyRound_intCast (m : Int) : Gando.pyRound ((m : Int) : ℚ) = m := by
  have h := pyRound_int_add_frac m 0 le_rfl (by norm_num)
  rw [add_zero] at h
  rw [h, if_pos (by norm_num : (0 : ℚ) < 1 / 2)]

/-- `pyRound` moves its argument by at most one half. -/
theorem pyRound_close (x : ℚ) : |((Gando.pyRound x : Int) : ℚ) - x| ≤ 1 / 2 := by
  have h0 : (⌊x⌋ : ℚ) ≤ x := Int.floor_le x
  have h1 : x < (⌊x⌋ : ℚ) + 1 := Int.lt_floor_add_one x
  unfold Gando.pyRound
  split_ifs with ha hb hc <;>
    · rw [abs_le]
      push_cast
      constructor <;> linarith

/-- A positive dyadic rational `c/2` below `2^52` is an exact binary64
value: `floatRound` fixes it. -/
theorem floatRound_dyadic (c : Int) (x : ℚ) (hx0 : 0 < x) (hxb : x < 2 ^ 52)
    (hxc : x = (c : ℚ) / 2) : Gando.floatRound x = x := by
  have h2ne : (2 : ℚ) ≠ 0 := by norm_num
  have he : Int.log 2 x < 52 := by
    rw [← Int.lt_zpow_iff_log_lt (by norm_num) hx0]
    calc x < 2 ^ 52 := hxb
      _ = ((2 : ℕ) : ℚ) ^ (52 : Int) := by norm_num
  set e := Int.log 2 x with hedef
  have hnn : 0 ≤ 51 - e := by omega
  have hpow : (2 : ℚ) ^ ((52 : Int) - e) = 2 * (2 : ℚ) ^ ((51 : Int) - e) := by
    rw [← zpow_one_add₀ h2ne]
    congr 1
    ring
  have hm : x * (2 : ℚ) ^ ((52 : Int) - e) = ((c * 2 ^ (51 - e).toNat : Int) : ℚ) := by
    rw [hxc, hpow]
    push_cast
    rw [← zpow_natCast (2 : ℚ) (51 - e).toNat, Int.toNat_of_nonneg hnn]
    field_simp
    ring
  unfold Gando.floatRound
  rw [← hedef, hm, pyRound_intCast, ← hm, mul_assoc, ← zpow_add₀ h2ne]
  have hz : (52 : Int) - e + (e - 52) = 0 := by ring
  rw [hz, zpow_zero, mul_one]

/-- `floatRound` moves a positive rational by at most a relative `2^-53`
(half an ulp). -/
theorem floatRound_close (x : ℚ) (hx0 : 0 < x) :
    |Gando.floatRound x - x| ≤ x / 2 ^ 53 := by
  have h2ne : (2 : ℚ) ≠ 0 := by norm_num
  unfold Gando.floatRound
  set e := Int.log 2 x with hedef
  set y := x * (2 : ℚ) ^ ((52 : Int) - e) with hydef
  have hxy : x = y * (2 : ℚ) ^ (e - (52 : Int)) := by
    rw [hydef, mul_assoc, ← zpow_add₀ h2ne]
    have hz : (52 : Int) - e + (e - 52) = 0 := by ring
    rw [hz, zpow_zero, mul_one]
  have hstep : ((Gando.pyRound y : Int) : ℚ) * (2 : ℚ) ^ (e - (52 : Int)) - x =
      (((Gando.pyRound y : Int) : ℚ) - y) * (2 : ℚ) ^ (e - (52 : Int)) := by
    conv_lhs => rw [hxy]
    ring
  rw [hstep, abs_mul, abs_of_pos (show (0 : ℚ) < (2 : ℚ) ^ (e - (52 : Int)) by positivity)]
  have hb2 : (2 : ℚ) ^ e ≤ x := by
    have h := Int.zpow_log_le_self (b := 2) (R := ℚ) (by norm_num) hx0
    rw [← hedef] at h
    push_cast at h
    exact h
  have hle : (2 : ℚ) ^ (e - (52 : Int)) ≤ x / 2 ^ 52 := by
    rw [zpow_sub₀ h2ne]
    have h52 : (2 : ℚ) ^ (52 : Int) = (2 : ℚ) ^ (52 : ℕ) := by norm_num
    rw [h52]
    gcongr
  have hpc := pyRound_close y
  calc |((Gando.pyRound y : Int) : ℚ) - y| * (2 : ℚ) ^ (e - (52 : Int))
      ≤ (1 / 2) * (x / 2 ^ 52) := by
        apply mul_le_mul hpc hle (by positivity) (by norm_num)
    _ = x / 2 ^ 53 := by ring

/-- `pyRound` of a value strictly between an integer and the next half. -/
theorem pyRound_between_lo (k : Int) (v : ℚ) (hlo : (k : ℚ) < v)
    (hhi : v < (k : ℚ) + 1 / 2) : Gando.pyRound v = k := by
  have h : v = (k : ℚ) + (v - k) := by ring
  rw [h, pyRound_int_add_frac k (v - k) (by linarith) (by linarith), if_pos (by linarith)]

/-- `pyRound` of a value strictly between a half and the next integer. -/
theorem pyRound_between_hi (k : Int) (v : ℚ) (hlo : (k : ℚ) + 1 / 2 < v)
    (hhi : v < (k : ℚ) + 1) : Gando.pyRound v = k + 1 := by
  have h : v = (k : ℚ) + (v - k) := by ring
  rw [h, pyRound_int_add_frac k (v - k) (by linarith) (by linarith),
    if_neg (by linarith), if_pos (by linarith)]

/-- The source `last_page` — computed on the correctly-rounded double
quotient — equals the integer closed form for every positive page size
and every count in `(0, 2^52)`: within that range the float quotient
stays strictly on the same side of every integer and half-integer
boundary as the exact quotient (and lands exactly on the dyadic
boundaries the exact quotient hits), so no rounding decision flips. -/
theorem last_page_q_eq (ps count : Int) (hps : 0 < ps) (hc0 : 0 < count)
    (hcb : count < 2 ^ 52) :
    Gando.last_page_q ps count = ((Gando.last_page_closed ps count : Int) : ℚ) := by
  have hpsQ : (0 : ℚ) < (ps : ℚ) := by exact_mod_cast hps
  have hpsQ0 : (ps : ℚ) ≠ 0 := ne_of_gt hpsQ
  set q : Int := count / ps with hqdef
  set r : Int := count % ps with hrdef
  have hed : ps * q + r = count := Int.ediv_add_emod count ps
  have hdecomp : (count : ℚ) / (ps : ℚ) = (q : ℚ) + (r : ℚ) / (ps : ℚ) := by
    have hcast : (count : ℚ) = (ps : ℚ) * (q : ℚ) + (r : ℚ) := by exact_mod_cast hed.symm
    rw [hcast]
    field_simp
    ring
  have hr0 : 0 ≤ r := hrdef ▸ Int.emod_nonneg count (ne_of_gt hps)
  have hrlt : r < ps := hrdef ▸ Int.emod_lt_of_pos count hps
  have hcpos : (0 : ℚ) < (count : ℚ) / (ps : ℚ) :=
    div_pos (by exact_mod_cast hc0) hpsQ
  have hcle : (count : ℚ) / (ps : ℚ) < 2 ^ 52 := by
    have hone : (1 : ℚ) ≤ (ps : ℚ) := by exact_mod_cast hps
    apply lt_of_le_of_lt (div_le_self (by positivity) hone)
    exact_mod_cast hcb
  by_cases hr : r = 0
  · have hcps : (count : ℚ) / (ps : ℚ) = (q : ℚ) := by
      rw [hdecomp, hr]
      push_cast
      ring
    have hfr : Gando.floatRound ((count : ℚ) / (ps : ℚ)) = (count : ℚ) / (ps : ℚ) := by
      apply floatRound_dyadic (2 * q) _ hcpos hcle
      rw [hcps]
      push_cast
      ring
    have hpr : Gando.pyRound ((count : ℚ) / (ps : ℚ)) = q := by
      rw [hcps, pyRound_intCast]
    unfold Gando.last_page_q
    rw [hfr, hpr, hcps, if_pos rfl]
    have hclosed : Gando.last_page_closed ps count = q := by
      unfold Gando.last_page_closed
      rw [← hrdef, ← hqdef, if_pos hr]
    rw [hclosed]
  · have hrpos : 0 < r := lt_of_le_of_ne hr0 (Ne.symm hr)
    have h1le : (1 : ℚ) ≤ (r : ℚ) := by exact_mod_cast hrpos
    have hx_lo : (1 : ℚ) / (ps : ℚ) ≤ (r : ℚ) / (ps : ℚ) := by gcongr
    have hhalf : (1 : ℚ) / (ps : ℚ) = 2 * (1 / (2 * (ps : ℚ))) := by
      field_simp
    have hpos2 : (0 : ℚ) < 1 / (2 * (ps : ℚ)) := by positivity
    have hgap : (count : ℚ) / (ps : ℚ) / 2 ^ 53 < 1 / (2 * (ps : ℚ)) := by
      rw [div_div, div_lt_div_iff₀ (by positivity) (by positivity)]
      have hc2 : (count : ℚ) < 2 ^ 52 := by exact_mod_cast hcb
      nlinarith [mul_lt_mul_of_pos_right hc2 (show (0 : ℚ) < 2 * (ps : ℚ) by positivity)]
    rcases lt_trichotomy (2 * r) ps with hlt | heq | hgt
    · -- fractional part strictly below one half
      have hx_hi : (r : ℚ) / (ps : ℚ) + 1 / (2 * (ps : ℚ)) ≤ 1 / 2 := by
        have hs2 : (r : ℚ) / (ps : ℚ) + 1 / (2 * (ps : ℚ)) =
            (2 * (r : ℚ) + 1) / (2 * (ps : ℚ)) := by
          field_simp
          ring
        rw [hs2, div_le_div_iff₀ (by positivity) (by norm_num)]
        have h2r : (2 * (r : ℚ)) + 1 ≤ (ps : ℚ) := by exact_mod_cast hlt
        linarith
      have hclose := floatRound_close ((count : ℚ) / (ps : ℚ)) hcpos
      rw [abs_le] at hclose
      set fr := Gando.floatRound ((count : ℚ) / (ps : ℚ)) with hfrdef
      have hfr_lo : (q : ℚ) < fr := by linarith [hclose.1, hclose.2]
      have hfr_hi : fr < (q : ℚ) + 1 / 2 := by linarith [hclose.1, hclose.2]
      have hpr : Gando.pyRound fr = q := pyRound_between_lo q fr hfr_lo hfr_hi
      unfold Gando.last_page_q
      rw [← hfrdef, hpr, if_neg (fun h => (ne_of_lt hfr_lo) h)]
      have hclosed : Gando.last_page_closed ps count = q + 1 := by
        unfold Gando.last_page_closed
        rw [← hrdef, ← hqdef, if_neg hr, if_pos hlt]
      rw [hclosed]
      push_cast
      ring
    · -- fractional part exactly one half: the quotient is a dyadic the
      -- double represents exactly, so the even/odd tie rule decides
      have hfe : (r : ℚ) / (ps : ℚ) = 1 / 2 := by
        rw [div_eq_div_iff hpsQ0 (by norm_num : (2 : ℚ) ≠ 0)]
        have h2r : ((2 * r : Int) : ℚ) = (ps : ℚ) := by exact_mod_cast heq
        push_cast at h2r
        linarith
      have hcps2 : (count : ℚ) / (ps : ℚ) = (q : ℚ) + 1 / 2 := by
        rw [hdecomp, hfe]
      have hfr : Gando.floatRound ((count : ℚ) / (ps : ℚ)) = (count : ℚ) / (ps : ℚ) := by
        apply floatRound_dyadic (2 * q + 1) _ hcpos hcle
        rw [hcps2]
        push_cast
        ring
      have hpr : Gando.pyRound ((count : ℚ) / (ps : ℚ)) =
          if q % 2 = 0 then q else q + 1 := by
        rw [hcps2, pyRound_int_add_frac q (1 / 2) (by norm_num) (by norm_num),
          if_neg (lt_irrefl _), if_neg (lt_irrefl _)]
      by_cases hq2 : q % 2 = 0
      · have hprq : Gando.pyRound ((count : ℚ) / (ps : ℚ)) = q := by
          rw [hpr, if_pos hq2]
        have hne : ¬ ((q : ℚ) = (count : ℚ) / (ps : ℚ)) := by
          intro h
          rw [hcps2] at h
          linarith
        unfold Gando.last_page_q
        rw [hfr, hprq, if_neg hne]
        have hclosed : Gando.last_page_closed ps count = q + 1 := by
          unfold Gando.last_page_closed
          rw [← hrdef, ← hqdef, if_neg hr, if_neg (by omega), if_pos ⟨heq, hq2⟩]
        rw [hclosed]
        push_cast
        ring
      · have hprq : Gando.pyRound ((count : ℚ) / (ps : ℚ)) = q + 1 := by
          rw [hpr, if_neg hq2]
        have hne : ¬ (((q + 1 : Int) : ℚ) = (count : ℚ) / (ps : ℚ)) := by
          intro h
          rw [hcps2] at h
          push_cast at h
          linarith
        unfold Gando.last_page_q
        rw [hfr, hprq]
        rw [if_neg (by exact_mod_cast hne)]
        have hclosed : Gando.last_page_closed ps count = q + 2 := by
          unfold Gando.last_page_closed
          rw [← hrdef, ← hqdef, if_neg hr, if_neg (by omega), if_neg (by tauto)]
        rw [hclosed]
        push_cast
        ring
    · -- fractional part strictly above one half
      have hx_lo2 : 1 / 2 + 1 / (2 * (ps : ℚ)) ≤ (r : ℚ) / (ps : ℚ) := by
        have hs2 : (1 : ℚ) / 2 + 1 / (2 * (ps : ℚ)) =
            ((ps : ℚ) + 1) / (2 * (ps : ℚ)) := by
          field_simp
        rw [hs2, div_le_div_iff₀ (by positivity) hpsQ]
        have h2r : (ps : ℚ) + 1 ≤ 2 * (r : ℚ) := by exact_mod_cast hgt
        nlinarith [mul_le_mul_of_nonneg_right h2r (le_of_lt hpsQ)]
      have hx_hi2 : (r : ℚ) / (ps : ℚ) ≤ 1 - 1 / (ps : ℚ) := by
        have hrle : (r : ℚ) ≤ (ps : ℚ) - 1 := by
          have h3 : ((r + 1 : Int) : ℚ) ≤ (ps : ℚ) := by exact_mod_cast hrlt
          push_cast at h3
          linarith
        have h1 : (r : ℚ) / (ps : ℚ) ≤ ((ps : ℚ) - 1) / (ps : ℚ) := by gcongr
        have h2 : ((ps : ℚ) - 1) / (ps : ℚ) = 1 - 1 / (ps : ℚ) := by
          field_simp
        rw [h2] at h1
        exact h1
      have hclose := floatRound_close ((count : ℚ) / (ps : ℚ)) hcpos
      rw [abs_le] at hclose
      set fr := Gando.floatRound ((count : ℚ) / (ps : ℚ)) with hfrdef
      have hfr_lo : (q : ℚ) + 1 / 2 < fr := by linarith [hclose.1, hclose.2]
      have hfr_hi : fr < (q : ℚ) + 1 := by linarith [hclose.1, hclose.2]
      have hpr : Gando.pyRound fr = q + 1 := pyRound_between_hi q fr hfr_lo hfr_hi
      have hne : ¬ (((Gando.pyRound fr : Int) : ℚ) = fr) := by
        rw [hpr]
        intro h
        push_cast at h
        linarith
      unfold Gando.last_page_q
      rw [← hfrdef, if_neg hne, hpr]
      have hclosed : Gando.last_page_closed ps count = q + 2 := by
        unfold Gando.last_page_closed
        rw [← hrdef, ← hqdef, if_neg hr, if_neg (by omega), if_neg (by omega)]
      rw [hclosed]
      push_cast
      ring

/-- The float artifact that bounds `last_page_q_eq`: at `count = 2^54 + 1`,
`page_size = 2^55` the double quotient is exactly one half (the exact
quotient `1/2 + 2^-55` rounds down to the representable `1/2`), so the
program computes `round(0.5) = 0` and `last_page = 1` — although the
exact fractional part exceeds one half, for which the closed form would
give 2.  Hence the `count < 2^52` bound is genuinely required. -/
theorem last_page_float_artifact :
    Gando.floatRound (((2 ^ 54 + 1 : Int) : ℚ) / ((2 ^ 55 : Int) : ℚ)) = 1 / 2 ∧
      Gando.last_page_q (2 ^ 55) (2 ^ 54 + 1) = 1 := by
  have hq0 : (0 : ℚ) < ((2 ^ 54 + 1 : Int) : ℚ) / ((2 ^ 55 : Int) : ℚ) := by
    push_cast
    positivity
  have he : Int.log 2 (((2 ^ 54 + 1 : Int) : ℚ) / ((2 ^ 55 : Int) : ℚ)) = -1 := by
    have h1 : Int.log 2 (((2 ^ 54 + 1 : Int) : ℚ) / ((2 ^ 55 : Int) : ℚ)) < 0 := by
      rw [← Int.lt_zpow_iff_log_lt (by norm_num) hq0]
      push_cast
      rw [div_lt_iff₀ (by positivity)]
      norm_num
    have h2 : -1 ≤ Int.log 2 (((2 ^ 54 + 1 : Int) : ℚ) / ((2 ^ 55 : Int) : ℚ)) := by
      rw [← Int.zpow_le_iff_le_log (by norm_num) hq0]
      push_cast
      rw [zpow_neg, zpow_one, le_div_iff₀ (by positivity)]
      norm_num
    omega
  have hfr : Gando.floatRound (((2 ^ 54 + 1 : Int) : ℚ) / ((2 ^ 55 : Int) : ℚ)) = 1 / 2 := by
    unfold Gando.floatRound
    rw [he]
    have harg : (((2 ^ 54 + 1 : Int) : ℚ) / ((2 ^ 55 : Int) : ℚ)) *
        (2 : ℚ) ^ ((52 : Int) - (-1)) = ((2 ^ 52 : Int) : ℚ) + 1 / 4 := by
      push_cast
      norm_num
    rw [harg]
    have hp2 : Gando.pyRound (((2 ^ 52 : Int) : ℚ) + 1 / 4) = 2 ^ 52 := by
      rw [pyRound_int_add_frac (2 ^ 52) (1 / 4) (by norm_num) (by norm_num),
        if_pos (by norm_num)]
    rw [hp2]
    push_cast
    norm_num
  refine ⟨hfr, ?_⟩
  unfold Gando.last_page_q
  rw [hfr]
  have hpr : Gando.pyRound ((1 : ℚ) / 2) = 0 := by
    have h := pyRound_int_add_frac 0 (1 / 2) (by norm_num) (by norm_num)
    rw [show ((0 : Int) : ℚ) + 1 / 2 = 1 / 2 from by norm_num] at h
    rw [h, if_neg (lt_irrefl _), if_neg (lt_irrefl _), if_pos (by norm_num)]
  rw [hpr, if_neg (by norm_num)]
  norm_num

/-- Claim C4 (counterexample): at `count = 26`, `page_size = 10`,
`page_number = 3`, the claimed derivation (`last_page = ceil(26/10) = 3`)
yields `next = None`, but the code computes `last_page = round(2.6) + 1 = 4`
and yields a next URL for page 4. -/
theorem C4_counterexample :
    (Gando.get_pagination_url "p" 10 3 26).1 = some "p?page=4" ∧
      (Gando.claimed_pagination "p" 10 3 26).1 = none := by
  have hlp : Gando.last_page_q 10 26 = ((4 : Int) : ℚ) := by
    rw [last_page_q_eq 10 26 (by norm_num) (by norm_num) (by norm_num)]
    norm_num [show Gando.last_page_closed 10 26 = 4 from by decide]
  have hnext : Gando.next_page_number 10 3 26 = some 4 := by
    unfold Gando.next_page_number
    rw [hlp]
    norm_num
  have hceil : ⌈((26 : Int) : ℚ) / ((10 : Int) : ℚ)⌉ = 3 := by
    rw [Int.ceil_eq_iff]
    constructor <;> norm_num
  constructor
  · show Gando.render_page "p" (Gando.next_page_number 10 3 26) = some "p?page=4"
    rw [hnext]
    decide
  · show (if (⌈((26 : Int) : ℚ) / ((10 : Int) : ℚ)⌉ : Int) ≤ 3 then none
        else some ("p" ++ "?page=" ++ toString ((3 : Int) + 1))) = none
    rw [hceil]
    norm_num

/-- Decomposition of an exact integer quotient into integer part and
remainder fraction. -/
theorem rat_div_decomp (ps count : Int) (hps : 0 < ps) :
    (count : ℚ) / (ps : ℚ) =
      ((count / ps : Int) : ℚ) + ((count % ps : Int) : ℚ) / (ps : ℚ) := by
  have hpsQ0 : (ps : ℚ) ≠ 0 := by
    exact_mod_cast ne_of_gt hps
  have hcast : (count : ℚ) = (ps : ℚ) * ((count / ps : Int) : ℚ) + ((count % ps : Int) : ℚ) := by
    exact_mod_cast (Int.ediv_add_emod count ps).symm
  rw [hcast]
  field_simp
  ring

/-- The remainder fraction lies in `[0,1)` for a positive divisor. -/
theorem rat_mod_frac_bounds (ps count : Int) (hps : 0 < ps) :
    0 ≤ ((count % ps : Int) : ℚ) / (ps : ℚ) ∧ ((count % ps : Int) : ℚ) / (ps : ℚ) < 1 := by
  have hpsQ : (0 : ℚ) < (ps : ℚ) := by exact_mod_cast hps
  constructor
  · exact div_nonneg (by exact_mod_cast Int.emod_nonneg count (ne_of_gt hps)) (le_of_lt hpsQ)
  · rw [div_lt_one hpsQ]
    exact_mod_cast Int.emod_lt_of_pos count hps

/-- Claim C4 (amended): for positive `page_number`, positive
`count < 2^52` and positive `page_size ≤ 2^1022` — bounds inside which
the binary64 quotient `count / page_size` is the correctly-rounded normal
double modelled by `floatRound`, and cannot flip any rounding decision —
the derivation computes `last_page` as exact division when it is exact,
and otherwise as floor plus one when the fractional part of
`count/page_size` is below one half — or equal to one half with even
floor — and floor plus two when it is above one half or equal to one half
with odd floor (Python half-to-even rounding of the double quotient, plus
one); `next` is `page_number + 1` unless at or after this `last_page`,
`previous` is `page_number - 1` unless at or before page 1, each rendered
as `<path>?page=<n>` or null.  Outside these bounds float artifacts take
over (at `count = 2^54 + 1`, `page_size = 2^55` the double quotient is
exactly one half and `last_page` is 1, not 2).  `last_page` coincides
with `ceil(count/page_size)` exactly when the fractional part is zero,
below one half, or one half with even floor; the claim's own examples
(`count = 25`, `page_size = 10`) hold as stated. -/
theorem C4_pagination :
    (∀ (path : String) (ps pn count : Int), 0 < ps → 0 < pn → 0 < count →
      count < 2 ^ 52 → ps ≤ 2 ^ 1022 →
      Gando.get_pagination_url path ps pn count =
        ((if Gando.last_page_closed ps count ≤ pn then none
          else some (path ++ "?page=" ++ toString (pn + 1))),
          (if pn ≤ 1 then none else some (path ++ "?page=" ++ toString (pn - 1)))) ∧
        (count % ps = 0 ∨ 2 * (count % ps) < ps ∨
            (2 * (count % ps) = ps ∧ (count / ps) % 2 = 0) →
          Gando.last_page_closed ps count = ⌈(count : ℚ) / (ps : ℚ)⌉)) ∧
      Gando.get_pagination_url "p" 10 1 25 = (some "p?page=2", none) ∧
      Gando.get_pagination_url "p" 10 3 25 = (none, some "p?page=2") ∧
      Gando.last_page_closed 10 25 = 3 := by
  have main : ∀ (path : String) (ps pn count : Int), 0 < ps → 0 < pn → 0 < count →
      count < 2 ^ 52 → ps ≤ 2 ^ 1022 →
      Gando.get_pagination_url path ps pn count =
        ((if Gando.last_page_closed ps count ≤ pn then none
          else some (path ++ "?page=" ++ toString (pn + 1))),
          (if pn ≤ 1 then none else some (path ++ "?page=" ++ toString (pn - 1)))) ∧
        (count % ps = 0 ∨ 2 * (count % ps) < ps ∨
            (2 * (count % ps) = ps ∧ (count / ps) % 2 = 0) →
          Gando.last_page_closed ps count = ⌈(count : ℚ) / (ps : ℚ)⌉) := by
    intro path ps pn count hps hpn hc hcb hpsb
    constructor
    · unfold Gando.get_pagination_url
      simp only [Prod.mk.injEq]
      constructor
      · unfold Gando.next_page_number
        rw [last_page_q_eq ps count hps hc hcb]
        have hiff : ((pn : ℚ) ≥ ((Gando.last_page_closed ps count : Int) : ℚ)) ↔
            Gando.last_page_closed ps count ≤ pn := by
          rw [ge_iff_le, Int.cast_le]
        by_cases h : Gando.last_page_closed ps count ≤ pn
        · rw [if_pos (hiff.mpr h), if_pos h]
          rfl
        · rw [if_neg (fun hq => h (hiff.mp hq)), if_neg h]
          simp only [Gando.render_page]
          rw [if_pos (by omega : pn + 1 ≠ 0)]
      · unfold Gando.previous_page_number Gando.first_page
        rw [if_neg (by omega : ¬ count = 0)]
        by_cases hp : pn ≤ 1
        · rw [if_pos ⟨hp, one_ne_zero⟩, if_pos hp]
          rfl
        · rw [if_neg (fun hq => hp hq.1), if_neg hp]
          simp only [Gando.render_page]
          rw [if_pos (by omega : pn - 1 ≠ 0)]
    · intro hcond
      have hdec := rat_div_decomp ps count hps
      have hfrac := rat_mod_frac_bounds ps count hps
      by_cases hr0 : count % ps = 0
      · have hcps : (count : ℚ) / (ps : ℚ) = ((count / ps : Int) : ℚ) := by
          rw [hdec, hr0]
          push_cast
          ring
        rw [hcps, Int.ceil_intCast]
        unfold Gando.last_page_closed
        rw [if_pos hr0]
      · have hrpos : 0 < count % ps :=
          lt_of_le_of_ne (Int.emod_nonneg count (ne_of_gt hps)) (Ne.symm hr0)
        have hfpos : 0 < ((count % ps : Int) : ℚ) / (ps : ℚ) :=
          div_pos (by exact_mod_cast hrpos) (by exact_mod_cast hps)
        have hceil : ⌈(count : ℚ) / (ps : ℚ)⌉ = count / ps + 1 := by
          rw [Int.ceil_eq_iff]
          constructor
          · rw [hdec]
            push_cast
            linarith
          · rw [hdec]
            push_cast
            linarith [hfrac.2]
        rw [hceil]
        unfold Gando.last_page_closed
        rcases hcond with h | h | h
        · exact absurd h hr0
        · rw [if_neg hr0, if_pos h]
        · rw [if_neg hr0]
          by_cases hlt : 2 * (count % ps) < ps
          · rw [if_pos hlt]
          · rw [if_neg hlt, if_pos h]
  refine ⟨main, ?_, ?_, by decide⟩
  · rw [(main "p" 10 1 25 (by norm_num) (by norm_num) (by norm_num) (by norm_num)
        (by norm_num)).1]
    decide
  · rw [(main "p" 10 3 25 (by norm_num) (by norm_num) (by norm_num) (by norm_num)
        (by norm_num)).1]
    decide

/-- Claim C4 (witness): the amended derivation applied at `page_size = 10`,
`page_number = 2`, `count = 26` — the code yields page 3 next and page 1
previous. -/
theorem C4_witness :
    Gando.get_pagination_url "q" 10 2 26 = (some "q?page=3", some "q?page=1") := by
  rw [(C4_pagination.1 "q" 10 2 26 (by norm_num) (by norm_num) (by norm_num)
      (by norm_num) (by norm_num)).1]
  decide

set_option maxHeartbeats 1000000 in
/-- With no recorded exception the messenger adder appends exactly the
band-table entry (nothing for status codes outside every band). -/
theorem adder_messenger (s : Gando.GState) (hexc : s.exc = none) :
    (Gando.default_messenger_message_adder s).messenger =
      (match Gando.band_default (Gando.stored_status_code s) with
       | some d => s.messenger ++
           [Gando.mkMessengerEntry (.vstr .plain "" d.message) (.vstr .plain "" d.code) d.type0]
       | none => s.messenger) := by
  simp only [Gando.default_messenger_message_adder, Gando.band_default, hexc]
  split_ifs <;> simp [Gando.add_to_messenger, Gando.py_or, Gando.mkMessengerEntry]

/-- `set_default_message` changes the messenger exactly as the adder does
(the band text itself goes to the warning/info/error accumulators). -/
theorem set_default_message_messenger (s : Gando.GState) :
    (Gando.set_default_message s).messenger =
      (Gando.default_messenger_message_adder s).messenger := by
  simp only [Gando.set_default_message]
  split_ifs <;> rfl

/-- Claim C5 (counterexample): with the status code explicitly set to 50
(below every band) and `data = None`, v1 finalization yields
`{'result': {}}` but appends NO messenger entry at all — the adder's
final `else: pass` branch — contradicting the claimed "exactly one
default messenger entry" for every status code. -/
theorem C5_counterexample :
    ((Gando.validate_data { Gando.initState with statusCode := some 50 }).1).messenger = [] ∧
      (Gando.validate_data { Gando.initState with statusCode := some 50 }).2 =
        .vdict (.cons "result" (.vdict .nil) .nil) := by
  decide

/-- Claim C5 (amended): with `data = None` and no recorded exception
object, v1 `validate_data` yields `{'result': {}}`, and the messenger
grows by exactly the canned entry of the status-code band
(100s/200s/201/300s/400/401/403/404/421/500s) — and by nothing when the
status code lies below 100, outside every band.  (When an exception is
recorded, its truthy `detail`/`get_codes()` values take precedence over
the canned message and code.) -/
theorem C5_null_data_default_entry :
    ∀ s : Gando.GState, s.data = .pynone → s.exc = none →
      (Gando.validate_data s).2 = .vdict (.cons "result" (.vdict .nil) .nil) ∧
        ((Gando.validate_data s).1).messenger =
          (match Gando.band_default (Gando.stored_status_code s) with
           | some d => s.messenger ++
               [Gando.mkMessengerEntry (.vstr .plain "" d.message) (.vstr .plain "" d.code)
                 d.type0]
           | none => s.messenger) := by
  intro s hdata hexc
  have hv : Gando.validate_data s =
      (Gando.set_default_message s, .vdict (.cons "result" (.vdict .nil) .nil)) := by
    unfold Gando.validate_data
    rw [hdata]
  rw [hv]
  exact ⟨rfl, by rw [set_default_message_messenger, adder_messenger s hexc]⟩

/-- Claim C5 (witness): the amended theorem at status 404 on a fresh
state — the 404 canned entry is appended and the payload is
`{'result': {}}`. -/
theorem C5_witness :
    (Gando.validate_data { Gando.initState with statusCode := some 404 }).2 =
        .vdict (.cons "result" (.vdict .nil) .nil) ∧
      ((Gando.validate_data { Gando.initState with statusCode := some 404 }).1).messenger =
        [Gando.mkMessengerEntry (.vstr .plain "" Gando.DefaultResponse404FailMessage.message)
          (.vstr .plain "" Gando.DefaultResponse404FailMessage.code)
          Gando.DefaultResponse404FailMessage.type0] := by
  have h := C5_null_data_default_entry { Gando.initState with statusCode := some 404 } rfl rfl
  refine ⟨h.1, ?_⟩
  rw [h.2]
  decide

set_option maxRecDepth 8192 in
/-- Claim C2 (counterexample): a recognized end-user error exception with
status 404, handled with the verbose-handling flag enabled, ends with the
forced status 421 (not the exception's own 404) and with the generic
`unexpectedError` message recorded — the generic path runs for recognized
exceptions too. -/
theorem C2_counterexample :
    Gando.recognized (Gando.RaisedExc.mk .endError 404 "c" "m" (.vlist .nil) none none) =
        true ∧
      (Gando.handle_exception true none
          (Gando.RaisedExc.mk .endError 404 "c" "m" (.vlist .nil) none none)
          Gando.initState).statusCode = some 421 ∧
      (Gando.handle_exception true none
          (Gando.RaisedExc.mk .endError 404 "c" "m" (.vlist .nil) none none)
          Gando.initState).errorsMessage =
        [("unexpectedError", .vstr .plain "" Gando.unexpectedErrorText)] := by
  refine ⟨rfl, ?_, ?_⟩ <;> decide

/-- Claim C2 (amended): handling a recognized domain exception sets the
status code to the exception's own and appends exactly one structured
message to the matching accumulator, and this is the final state when the
verbose-handling flag is off; when the flag is on, the generic handler
additionally runs for EVERY exception — recognized or not — forcing the
status to 421 and recording the generic `unexpectedError`
exception/error/warning messages on top of the dispatch. -/
theorem C2_exception_dispatch :
    (∀ (e : Gando.RaisedExc) (s : Gando.GState) (support : Option String),
      Gando.recognized e = true →
        (Gando.handle_exception false support e s).statusCode = some e.statusCode ∧
        (match e.cat with
         | .devError =>
             (Gando.handle_exception false support e s).errorsMessage =
                 s.errorsMessage ++ [(e.code, .vstr .plain "" e.message)] ∧
               (Gando.handle_exception false support e s).exceptionsMessage =
                 s.exceptionsMessage ∧
               (Gando.handle_exception false support e s).warningsMessage =
                 s.warningsMessage ∧
               (Gando.handle_exception false support e s).messenger = s.messenger
         | .devException =>
             (Gando.handle_exception false support e s).exceptionsMessage =
                 s.exceptionsMessage ++ [(e.code, .vstr .plain "" e.message)] ∧
               (Gando.handle_exception false support e s).errorsMessage = s.errorsMessage ∧
               (Gando.handle_exception false support e s).warningsMessage =
                 s.warningsMessage ∧
               (Gando.handle_exception false support e s).messenger = s.messenger
         | .devWarning =>
             (Gando.handle_exception false support e s).warningsMessage =
                 s.warningsMessage ++ [(e.code, .vstr .plain "" e.message)] ∧
               (Gando.handle_exception false support e s).errorsMessage = s.errorsMessage ∧
               (Gando.handle_exception false support e s).exceptionsMessage =
                 s.exceptionsMessage ∧
               (Gando.handle_exception false support e s).messenger = s.messenger
         | .endError =>
             (Gando.handle_exception false support e s).messenger =
                 s.messenger ++ [Gando.mkMessengerEntry (.vstr .plain "" e.message)
                   (.vstr .plain "" e.code) "ERROR"] ∧
               (Gando.handle_exception false support e s).errorsMessage = s.errorsMessage ∧
               (Gando.handle_exception false support e s).exceptionsMessage =
                 s.exceptionsMessage ∧
               (Gando.handle_exception false support e s).warningsMessage = s.warningsMessage
         | .endFail =>
             (Gando.handle_exception false support e s).messenger =
                 s.messenger ++ [Gando.mkMessengerEntry (.vstr .plain "" e.message)
                   (.vstr .plain "" e.code) "FAIL"] ∧
               (Gando.handle_exception false support e s).errorsMessage = s.errorsMessage ∧
               (Gando.handle_exception false support e s).exceptionsMessage =
                 s.exceptionsMessage ∧
               (Gando.handle_exception false support e s).warningsMessage = s.warningsMessage
         | .endWarning =>
             (Gando.handle_exception false support e s).messenger =
                 s.messenger ++ [Gando.mkMessengerEntry (.vstr .plain "" e.message)
                   (.vstr .plain "" e.code) "WARNING"] ∧
               (Gando.handle_exception false support e s).errorsMessage = s.errorsMessage ∧
               (Gando.handle_exception false support e s).exceptionsMessage =
                 s.exceptionsMessage ∧
               (Gando.handle_exception false support e s).warningsMessage = s.warningsMessage
         | .other => True)) ∧
      (∀ (e : Gando.RaisedExc) (s : Gando.GState) (support : Option String),
        (Gando.handle_exception true support e s).statusCode = some 421 ∧
          ("unexpectedError", .vstr .plain "" Gando.unexpectedErrorText) ∈
            (Gando.handle_exception true support e s).errorsMessage ∧
          ("unexpectedError", e.args) ∈
            (Gando.handle_exception true support e s).exceptionsMessage ∧
          ("unexpectedError",
              .vstr .plain "" "Please discuss this matter with software support.") ∈
            (Gando.handle_exception true support e s).warningsMessage) := by
  constructor
  · rintro ⟨cat, st, code, msg, args, det, gc⟩ s support hrec
    cases cat
    · exact ⟨rfl, rfl, rfl, rfl, rfl⟩
    · exact ⟨rfl, rfl, rfl, rfl, rfl⟩
    · exact ⟨rfl, rfl, rfl, rfl, rfl⟩
    · exact ⟨rfl, rfl, rfl, rfl, rfl⟩
    · exact ⟨rfl, rfl, rfl, rfl, rfl⟩
    · exact ⟨rfl, rfl, rfl, rfl, rfl⟩
    · simp [Gando.recognized] at hrec
  · rintro ⟨cat, st, code, msg, args, det, gc⟩ s support
    cases support with
    | none =>
        cases cat <;>
          refine ⟨rfl, ?_, ?_, ?_⟩ <;>
            simp [Gando.handle_exception, Gando.handle_exception_gando_handling_true,
              Gando.set_status_code, Gando.set_error_message, Gando.set_exception_message,
              Gando.set_warning_message, Gando.set_info_message,
              Gando.add_error_message_to_messenger, Gando.add_fail_message_to_messenger,
              Gando.add_warning_message_to_messenger, Gando.add_to_messenger]
    | some addr =>
        cases cat <;> by_cases haddr : addr = "" <;>
          refine ⟨rfl, ?_, ?_, ?_⟩ <;>
            simp [Gando.handle_exception, Gando.handle_exception_gando_handling_true,
              Gando.set_status_code, Gando.set_error_message, Gando.set_exception_message,
              Gando.set_warning_message, Gando.set_info_message,
              Gando.add_error_message_to_messenger, Gando.add_fail_message_to_messenger,
              Gando.add_warning_message_to_messenger, Gando.add_to_messenger, haddr]

/-- Claim C2 (witness): the amended dispatch applied to an end-user fail
exception with status 403, flag off — the status becomes 403 and exactly
one FAIL messenger entry is appended. -/
theorem C2_witness :
    (Gando.handle_exception false none
        (Gando.RaisedExc.mk .endFail 403 "cf" "mf" (.vlist .nil) none none)
        Gando.initState).statusCode = some 403 ∧
      (Gando.handle_exception false none
          (Gando.RaisedExc.mk .endFail 403 "cf" "mf" (.vlist .nil) none none)
          Gando.initState).messenger =
        [Gando.mkMessengerEntry (.vstr .plain "" "mf") (.vstr .plain "" "cf") "FAIL"] := by
  have h := C2_exception_dispatch.1
    (Gando.RaisedExc.mk .endFail 403 "cf" "mf" (.vlist .nil) none none)
    Gando.initState none (by decide)
  exact ⟨h.1, h.2.1⟩
